import Mathlib

/-!
# dingo: the HTTP API handlers of `app/handler/api.go`

A shallow embedding of the handlers of `app/handler/api.go` and of the three
collaborators they call:

* `strconv.Atoi` (Go standard library) for the numeric `id` parameter,
* `golf.Context` (web framework): `Param`, `JSON`, `JSONIndent`,
* the `model` package (lookups on the relational store), taken as the fields
  of an environment record so that every theorem holds for every store.

A handler is a function from the state of a request (`World`) to the state
after the handler returned. The state carries, besides the framework context,
a log of the calls the handler made, in order.
-/

namespace Dingo

/-! ## Go errors and `strconv.Atoi` -/

/-- A Go `error` value: the handlers only ever call `Error()` on it. -/
structure GoError where
  Error : String
deriving DecidableEq, Repr

/-- The two causes of a `strconv.NumError`. -/
inductive NumErr where
  | ErrSyntax
  | ErrRange
deriving DecidableEq, Repr

/-- The text of `ErrSyntax` and `ErrRange`. -/
def NumErr.text : NumErr → String
  | .ErrSyntax => "invalid syntax"
  | .ErrRange => "value out of range"

/-- The test `'0' <= c && c <= '9'` of `strconv.ParseUint`. -/
def isDigit (c : Char) : Bool :=
  decide (48 ≤ c.toNat) && decide (c.toNat ≤ 57)

/-- The digit loop of `strconv.ParseUint` in base 10, from the accumulator `n`.
A character that is no decimal digit ends the loop with `ErrSyntax`; a digit
that takes the accumulator above `maxVal` ends it with `ErrRange` and the value
`maxVal` (Go tests `n >= cutoff`, then `n1 < n || n1 > maxVal` on `uint64`: on
unbounded naturals, with `n ≤ maxVal < 2^64`, the two tests together are
`n * 10 + d > maxVal`). -/
def parseUintLoop (maxVal : Nat) : List Char → Nat → Nat × Option NumErr
  | [], n => (n, none)
  | c :: cs, n =>
    if isDigit c then
      let n1 := n * 10 + (c.toNat - 48)
      if n1 > maxVal then (maxVal, some .ErrRange)
      else parseUintLoop maxVal cs n1
    else (0, some .ErrSyntax)

/-- The function `strconv.ParseUint(s, 10, bitSize)` on the characters of `s`. -/
def ParseUint (bitSize : Nat) (s : List Char) : Nat × Option NumErr :=
  if s = [] then (0, some .ErrSyntax)
  else parseUintLoop (2 ^ bitSize - 1) s 0

/-- The function `strconv.ParseInt(s, 10, bitSize)`: picks off a leading sign,
converts the rest unsigned and checks the range of the signed result. -/
def ParseInt (bitSize : Nat) (s : List Char) : Int × Option NumErr :=
  match s with
  | [] => (0, some .ErrSyntax)
  | c :: rest =>
    let neg := decide (c = '-')
    let body := if c = '+' ∨ c = '-' then rest else s
    let r := ParseUint bitSize body
    if r.2 = some .ErrSyntax then (0, some .ErrSyntax)
    else
      let cutoff := 2 ^ (bitSize - 1)
      if !neg && decide (r.1 ≥ cutoff) then ((cutoff : Int) - 1, some .ErrRange)
      else if neg && decide (r.1 > cutoff) then (-(cutoff : Int), some .ErrRange)
      else (if neg then -(r.1 : Int) else (r.1 : Int), none)

/-! ## The data model -/

/-- Modelled from the spec: `model.Post` (its declaration is not in src):
id, slug, publication timestamp, content, with the page and published flags
that `GetAllPostList` selects on. -/
structure Post where
  Id : Int
  Slug : String
  Title : String
  IsPage : Bool
  IsPublished : Bool
  PublishedAt : Int
deriving DecidableEq, Repr

/-- Modelled from the spec: `model.Tag` (its declaration is not in src):
id, slug, name. -/
structure Tag where
  Id : Int
  Slug : String
  Name : String
deriving DecidableEq, Repr

/-- Modelled from the spec: `model.User` (its declaration is not in src):
id, slug, email. -/
structure User where
  Id : Int
  Slug : String
  Email : String
deriving DecidableEq, Repr

/-- Modelled from the spec: `model.Comment` (its declaration is not in src):
id, associated post id, content. -/
structure Comment where
  Id : Int
  PostId : Int
  Content : String
deriving DecidableEq, Repr

/-- A Go slice, the type behind `model.Posts`, `model.Tags` and
`model.Comments`: nil, or a sequence of entries, which may be empty.
`encoding/json` writes a nil slice as `null` and an empty one as `[]`. -/
inductive Slice (α : Type) where
  | nil
  | of (xs : List α)
deriving DecidableEq, Repr

/-- The entries of a slice. -/
def Slice.toList {α : Type} : Slice α → List α
  | .nil => []
  | .of xs => xs

/-- The Go `append` of the entries `xs` to a slice, one after the other: with
nothing to append the slice is left as it is, so a nil slice stays nil. -/
def Slice.append {α : Type} (s : Slice α) (xs : List α) : Slice α :=
  match xs with
  | [] => s
  | x :: rest => .of (s.toList ++ x :: rest)

/-- The zero value `model.Post{}`. -/
def Post.zero : Post := ⟨0, "", "", false, false, 0⟩

/-- The zero value `model.Tag{}`. -/
def Tag.zero : Tag := ⟨0, "", ""⟩

/-- The zero value `model.User{}`. -/
def User.zero : User := ⟨0, "", ""⟩

/-- The zero value `model.Comment{}`. -/
def Comment.zero : Comment := ⟨0, 0, ""⟩

/-! ## The environment of a handler -/

/-- What a handler finds around it: the Go platform (`strconv`) and the `model`
package over the current state of the store. Each lookup takes the receiver
the handler built (and the arguments it passed) and returns the populated
receiver or the error. -/
structure Env where
  /-- Whether `int` has 64 bits (`strconv.IntSize` is 64) or 32. -/
  is64 : Bool
  /-- The function `strconv.Quote`, used in the message of a `NumError`. -/
  Quote : String → String
  GetCommentById : Comment → Except GoError Comment
  GetCommentsByPostId : Slice Comment → Int → Except GoError (Slice Comment)
  GetAllPostList : Slice Post → Bool → Bool → String → Except GoError (Slice Post)
  GetPostById : Post → Except GoError Post
  GetPostBySlug : Post → String → Except GoError Post
  GetAllTags : Slice Tag → Except GoError (Slice Tag)
  GetTag : Tag → Except GoError Tag
  GetTagBySlug : Tag → Except GoError Tag
  GetUserById : User → Except GoError User
  GetUserBySlug : User → Except GoError User
  GetUserByEmail : User → Except GoError User
  /-- The method `posts.Module.GetTags` of the injected posts module. -/
  PostsGetTags : Slice Tag

/-- The constant `strconv.IntSize`. -/
def Env.intSize (env : Env) : Nat := if env.is64 then 64 else 32

/-- The message of a `*strconv.NumError`:
`"strconv." + Func + ": parsing " + Quote(Num) + ": " + Err.Error()`. -/
def numError (env : Env) (func num : String) (err : NumErr) : GoError :=
  ⟨"strconv." ++ func ++ ": parsing " ++ env.Quote num ++ ": " ++ err.text⟩

/-- The function `strconv.Atoi`: `ParseInt(s, 10, 0)` converted to `int`, with
the error's function name set to `Atoi` (Go before 1.10 left `ParseInt` there;
no theorem below depends on the name). -/
def Atoi (env : Env) (s : String) : Int × Option GoError :=
  let r := ParseInt env.intSize s.data
  (r.1, r.2.map (numError env "Atoi" s))

/-! ## The framework context (`golf.Context`) -/

/-- A value of a `map[string]interface{}` literal of the handlers. -/
inductive Any where
  | str (s : String)
  | int (n : Int)
deriving DecidableEq, Repr

/-- The Go value handed to `JSON` or `JSONIndent` for marshalling. A map
literal is kept as its key/value pairs in source order (`encoding/json` emits
the keys of a map sorted, so the order carries no meaning). -/
inductive Value where
  | map (kvs : List (String × Any))
  | comment (c : Comment)
  | comments (cs : Slice Comment)
  | post (p : Post)
  | posts (ps : Slice Post)
  | tag (t : Tag)
  | tags (ts : Slice Tag)
  | user (u : User)
deriving DecidableEq, Repr

/-- A response body: the marshalled value and the indentation it was
marshalled with (`none` for `json.Marshal`, `some (pre, ind)` for
`json.MarshalIndent(v, pre, ind)`). -/
structure Body where
  value : Value
  indent : Option (String × String)
deriving DecidableEq, Repr

/-- What reached the `http.ResponseWriter`: `WriteHeader(status)` followed by
`Write(body)`. -/
structure Response where
  status : Int
  body : Body
deriving DecidableEq, Repr

/-- The part of `golf.Context` that the handlers touch. -/
structure Context where
  /-- The parameters the router took from the URL. -/
  Params : List (String × String)
  /-- The HTTP status code the response will be sent with. -/
  statusCode : Int
  /-- Whether a response went out already. -/
  IsSent : Bool
  /-- The responses written to the `http.ResponseWriter`, oldest first. -/
  Written : List Response
deriving DecidableEq, Repr

/-- The function `golf.NewContext` of the framework (`github.com/dinever/golf`,
outside this repository): the context of a fresh request, with the status code
at the framework default 200 and nothing sent. -/
def NewContext (params : List (String × String)) : Context :=
  { Params := params, statusCode := 200, IsSent := false, Written := [] }

/-- The method `Context.Param`: the URL parameter `key`, or `""`. -/
def Context.Param (ctx : Context) (key : String) : String :=
  (ctx.Params.lookup key).getD ""

/-- The method `Context.Send` of the framework, through which `JSON` and
`JSONIndent` answer: writes the body with the context's current status code,
unless a response went out before. -/
def Context.Send (ctx : Context) (body : Body) : Context :=
  if ctx.IsSent then ctx
  else { ctx with Written := ctx.Written ++ [⟨ctx.statusCode, body⟩], IsSent := true }

/-- A call into the `model` package, with the receiver the handler built and
the arguments it passed. -/
inductive ModelCall where
  | GetCommentById (recv : Comment)
  | GetCommentsByPostId (recv : Slice Comment) (id : Int)
  | GetAllPostList (recv : Slice Post) (isPage onlyPublished : Bool) (orderBy : String)
  | GetPostById (recv : Post)
  | GetPostBySlug (recv : Post) (slug : String)
  | GetAllTags (recv : Slice Tag)
  | GetTag (recv : Tag)
  | GetTagBySlug (recv : Tag)
  | GetUserById (recv : User)
  | GetUserBySlug (recv : User)
  | GetUserByEmail (recv : User)
  | PostsGetTags
deriving DecidableEq, Repr

/-- One call a handler made on a collaborator. -/
inductive Event where
  | Param (key : String)
  | Model (call : ModelCall)
  | JSON (v : Value)
  | JSONIndent (v : Value) (pre ind : String)
deriving DecidableEq, Repr

/-- The state of one request: the framework context and the log of the calls
the handler made so far, oldest first. -/
structure World where
  ctx : Context
  log : List Event
deriving DecidableEq, Repr

/-- The state in which the router enters a handler. -/
def World.fresh (params : List (String × String)) : World :=
  { ctx := NewContext params, log := [] }

/-- Appends a call to the log. -/
def World.note (w : World) (e : Event) : World :=
  { w with log := w.log ++ [e] }

/-- The call `ctx.Param(key)`: logged; its value is `w.ctx.Param key`. -/
def World.read (w : World) (key : String) : World :=
  w.note (.Param key)

/-- A call into the model package: logged; its result comes from the `Env`. -/
def World.call (w : World) (c : ModelCall) : World :=
  w.note (.Model c)

/-- The method `Context.JSON`: marshals `v` with `json.Marshal` and sends it. -/
def JSON (w : World) (v : Value) : World :=
  { ctx := w.ctx.Send ⟨v, none⟩, log := w.log ++ [.JSON v] }

/-- The method `Context.JSONIndent`: marshals `v` with `json.MarshalIndent` and
sends it. -/
def JSONIndent (w : World) (v : Value) (pre ind : String) : World :=
  { ctx := w.ctx.Send ⟨v, some (pre, ind)⟩, log := w.log ++ [.JSONIndent v pre ind] }

/-! ## The handlers of `app/handler/api.go` -/

/-- The helper `handleErr`: sends the status code and the error message
formatted as JSON. -/
def handleErr (w : World) (statusCode : Int) (err : GoError) : World :=
  JSONIndent w (.map [("statusCode", .int statusCode), ("error", .str err.Error)]) "" "  "

/-- The method `GenericAPI.Ping`. -/
def Ping (_env : Env) (w : World) : World :=
  JSON w (.map [("status", .str "pong")])

/-- The method `GenericAPI.GetAllTags`. -/
def GetAllTags (env : Env) (w : World) : World :=
  let w := w.call .PostsGetTags
  let tags := env.PostsGetTags
  JSON w (.tags tags)

/-- The map literal `routes` of `APIDocumentationHandler`. -/
def routes : List (String × Any) :=
  [ ("auth_url", .str "/auth/"),
    ("api_documentation_url", .str "/api/"),
    ("comments_url", .str "/api/comments"),
    ("comment_url", .str "/api/comments/:id"),
    ("comment_post_url", .str "/api/comments/post/:id"),
    ("posts_url", .str "/api/posts/"),
    ("post_url", .str "/api/posts/:id"),
    ("post_slug_url", .str "/api/posts/slug/:slug"),
    ("tags_url", .str "/api/tags/"),
    ("tag_url", .str "/api/tags/:id"),
    ("tag_slug_url", .str "/api/tags/slug/:slug"),
    ("users_url", .str "/api/users/"),
    ("user_url", .str "/api/users/:id"),
    ("user_slug_url", .str "/api/users/slug/:slug"),
    ("user_email_url", .str "/api/users/email/:email") ]

/-- The handler `APIDocumentationHandler`. -/
def APIDocumentationHandler (_env : Env) (w : World) : World :=
  JSONIndent w (.map routes) "" "  "

/-- The handler `APICommentsHandler`. -/
def APICommentsHandler (_env : Env) (w : World) : World :=
  JSONIndent w (.map [("message", .str "Not implemented")]) "" "  "

/-- The handler `APICommentHandler`. -/
def APICommentHandler (env : Env) (w : World) : World :=
  let w := w.read "id"
  match Atoi env (w.ctx.Param "id") with
  | (_, some err) => handleErr w 500 err
  | (id, none) =>
    let comment : Comment := { Comment.zero with Id := id }
    let w := w.call (.GetCommentById comment)
    match env.GetCommentById comment with
    | .error err => handleErr w 404 err
    | .ok comment => JSONIndent w (.comment comment) "" "  "

/-- The handler `APICommentPostHandler`. -/
def APICommentPostHandler (env : Env) (w : World) : World :=
  let w := w.read "id"
  match Atoi env (w.ctx.Param "id") with
  | (_, some err) => handleErr w 500 err
  | (id, none) =>
    let comments : Slice Comment := .nil
    let w := w.call (.GetCommentsByPostId comments id)
    match env.GetCommentsByPostId comments id with
    | .error err => handleErr w 404 err
    | .ok comments => JSONIndent w (.comments comments) "" "  "

/-- The handler `APIPostsHandler`. -/
def APIPostsHandler (env : Env) (w : World) : World :=
  let posts : Slice Post := .nil
  let w := w.call (.GetAllPostList posts false true "published_at DESC")
  match env.GetAllPostList posts false true "published_at DESC" with
  | .error err => handleErr w 404 err
  | .ok posts => JSONIndent w (.posts posts) "" "  "

/-- The handler `APIPostHandler`. -/
def APIPostHandler (env : Env) (w : World) : World :=
  let w := w.read "id"
  match Atoi env (w.ctx.Param "id") with
  | (_, some err) => handleErr w 500 err
  | (id, none) =>
    let post : Post := { Post.zero with Id := id }
    let w := w.call (.GetPostById post)
    match env.GetPostById post with
    | .error err => handleErr w 404 err
    | .ok post => JSONIndent w (.post post) "" "  "

/-- The handler `APIPostSlugHandler`. -/
def APIPostSlugHandler (env : Env) (w : World) : World :=
  let w := w.read "slug"
  let slug := w.ctx.Param "slug"
  let post : Post := Post.zero
  let w := w.call (.GetPostBySlug post slug)
  match env.GetPostBySlug post slug with
  | .error err => handleErr w 404 err
  | .ok post => JSONIndent w (.post post) "" "  "

/-- The handler `APITagsHandler`. -/
def APITagsHandler (env : Env) (w : World) : World :=
  let tags : Slice Tag := .nil
  let w := w.call (.GetAllTags tags)
  match env.GetAllTags tags with
  | .error err => handleErr w 404 err
  | .ok tags => JSONIndent w (.tags tags) "" "  "

/-- The handler `APITagHandler`. -/
def APITagHandler (env : Env) (w : World) : World :=
  let w := w.read "id"
  match Atoi env (w.ctx.Param "id") with
  | (_, some err) => handleErr w 500 err
  | (id, none) =>
    let tag : Tag := { Tag.zero with Id := id }
    let w := w.call (.GetTag tag)
    match env.GetTag tag with
    | .error err => handleErr w 404 err
    | .ok tag => JSONIndent w (.tag tag) "" "  "

/-- The handler `APITagSlugHandler`. -/
def APITagSlugHandler (env : Env) (w : World) : World :=
  let w := w.read "slug"
  let slug := w.ctx.Param "slug"
  let tags : Tag := { Tag.zero with Slug := slug }
  let w := w.call (.GetTagBySlug tags)
  match env.GetTagBySlug tags with
  | .error err => handleErr w 500 err
  | .ok tags => JSONIndent w (.tag tags) "" "  "

/-- The handler `APIUsersHandler`. -/
def APIUsersHandler (_env : Env) (w : World) : World :=
  JSONIndent w (.map [("message", .str "Not implemented")]) "" "  "

/-- The handler `APIUserHandler`. -/
def APIUserHandler (env : Env) (w : World) : World :=
  let w := w.read "id"
  match Atoi env (w.ctx.Param "id") with
  | (_, some err) => handleErr w 500 err
  | (id, none) =>
    let user : User := { User.zero with Id := id }
    let w := w.call (.GetUserById user)
    match env.GetUserById user with
    | .error err => handleErr w 404 err
    | .ok user => JSONIndent w (.user user) "" "  "

/-- The handler `APIUserSlugHandler`. -/
def APIUserSlugHandler (env : Env) (w : World) : World :=
  let w := w.read "slug"
  let slug := w.ctx.Param "slug"
  let user : User := { User.zero with Slug := slug }
  let w := w.call (.GetUserBySlug user)
  match env.GetUserBySlug user with
  | .error err => handleErr w 404 err
  | .ok user => JSONIndent w (.user user) "" "  "

/-- The handler `APIUserEmailHandler`. -/
def APIUserEmailHandler (env : Env) (w : World) : World :=
  let w := w.read "email"
  let email := w.ctx.Param "email"
  let user : User := { User.zero with Email := email }
  let w := w.call (.GetUserByEmail user)
  match env.GetUserByEmail user with
  | .error err => handleErr w 404 err
  | .ok user => JSONIndent w (.user user) "" "  "

/-! ## Vocabulary of the claims -/

/-- The error envelope: the two-space-indented JSON object with the fields
`statusCode` and `error`. -/
def envelope (statusCode : Int) (msg : String) : Body :=
  ⟨.map [("statusCode", .int statusCode), ("error", .str msg)], some ("", "  ")⟩

/-- The two-space-indented JSON of a value. -/
def indented (v : Value) : Body :=
  ⟨v, some ("", "  ")⟩

/-- The bodies a handler wrote, oldest first. -/
def World.bodies (w : World) : List Body :=
  w.ctx.Written.map Response.body

/-- Whether a logged call is a send (`JSON` or `JSONIndent`). -/
def Event.isSend : Event → Bool
  | .JSON _ => true
  | .JSONIndent _ _ _ => true
  | _ => false

/-- Whether a logged call goes into the model package. -/
def Event.isModel : Event → Bool
  | .Model _ => true
  | _ => false

/-- A decimal integer: an optional sign followed by one or more decimal
digits. -/
def isDecimalInteger (s : String) : Bool :=
  match s.data with
  | [] => false
  | c :: rest =>
    if c = '+' ∨ c = '-' then !rest.isEmpty && rest.all isDigit
    else (c :: rest).all isDigit

/-- A string of decimal digits (one or more). -/
def isDigitString (s : String) : Bool :=
  !s.data.isEmpty && s.data.all isDigit

/-- The integer value of a list of decimal digits, on top of `n`. -/
def digitsValue (cs : List Char) (n : Nat) : Nat :=
  cs.foldl (fun a c => a * 10 + (c.toNat - 48)) n

/-- The integer value of a string of decimal digits. -/
def decimalValue (s : String) : Nat :=
  digitsValue s.data 0

/-! ## The store -/

/-- Modelled from the spec: the relational store behind the `model` package
(not in src): the rows of the four entities, and whether the store is
unavailable (then every query fails with the given error). -/
structure Store where
  failure : Option GoError
  Posts : List Post
  Tags : List Tag
  Users : List User
  Comments : List Comment
deriving DecidableEq, Repr

/-- Modelled from the spec: the store-specific not-found message of a lookup
that matches no record. -/
def errNoRows : GoError := ⟨"sql: no rows in result set"⟩

/-- Modelled from the spec: a query on the store fails when the store is
unavailable. -/
def Store.query {α : Type} (s : Store) (r : Except GoError α) : Except GoError α :=
  match s.failure with
  | some e => .error e
  | none => r

/-- Modelled from the spec: a fetch by identifier either fully populates the
entity or returns a failure. -/
def Store.one {α : Type} (s : Store) (found : Option α) : Except GoError α :=
  s.query (match found with
    | some x => .ok x
    | none => .error errNoRows)

/-- Modelled from the spec: the ordering request of `GetAllPostList`;
`"published_at DESC"` orders by publication time, descending. -/
def orderPosts (orderBy : String) (ps : List Post) : List Post :=
  if orderBy = "published_at DESC" then
    ps.insertionSort (fun a b => a.PublishedAt ≥ b.PublishedAt)
  else ps

/-- Modelled from the spec: `Posts.GetAllPostList(isPage, onlyPublished,
orderBy)` (the model package is not in src): the pages or the non-page posts
of the store, only the published ones when asked, ordered as requested,
appended row by row to the receiver. -/
def Store.GetAllPostList (s : Store) (recv : Slice Post) (isPage onlyPublished : Bool)
    (orderBy : String) : Except GoError (Slice Post) :=
  s.query (.ok (recv.append (orderPosts orderBy
    (s.Posts.filter (fun p => p.IsPage == isPage && (!onlyPublished || p.IsPublished))))))

/-- Modelled from the spec: the comments of a post; no matching record is a
miss. -/
def Store.GetCommentsByPostId (s : Store) (recv : Slice Comment) (id : Int) :
    Except GoError (Slice Comment) :=
  s.query (match s.Comments.filter (fun c => c.PostId == id) with
    | [] => .error errNoRows
    | cs => .ok (recv.append cs))

/-- A hexadecimal digit, lower case. -/
def hexDigit (n : Nat) : Char :=
  if n < 10 then Char.ofNat (48 + n) else Char.ofNat (87 + n)

/-- What `strconv.Quote` writes for one character: a double quote and a
backslash are backslashed, printable ASCII and printable Latin-1 stay, the
control characters get their escapes (`\a \b \f \n \r \t \v`, else `\x` and two
hexadecimal digits), the non-printable Latin-1 characters `\u` and four. A
character above Latin-1 stays as it is, as `strconv.Quote` leaves the printable
ones (which of them are printable is a table of the `unicode` package). -/
def quoteRune (c : Char) : List Char :=
  let r := c.toNat
  let bs := Char.ofNat 92
  if r = 34 ∨ r = 92 then [bs, c]
  else if (32 ≤ r ∧ r < 127) ∨ (161 ≤ r ∧ r ≤ 255 ∧ r ≠ 173) ∨ 255 < r then [c]
  else if r = 7 then [bs, 'a']
  else if r = 8 then [bs, 'b']
  else if r = 12 then [bs, 'f']
  else if r = 10 then [bs, 'n']
  else if r = 13 then [bs, 'r']
  else if r = 9 then [bs, 't']
  else if r = 11 then [bs, 'v']
  else if r < 32 ∨ r = 127 then [bs, 'x', hexDigit (r / 16), hexDigit (r % 16)]
  else [bs, 'u', '0', '0', hexDigit (r / 16), hexDigit (r % 16)]

/-- The function `strconv.Quote` on text of ASCII and Latin-1 characters (see
`quoteRune` for the characters above): the quoted characters between double
quotes. -/
def plainQuote (s : String) : String :=
  String.mk (Char.ofNat 34 :: (s.data.flatMap quoteRune ++ [Char.ofNat 34]))

/-- Modelled from the spec: the `model` package over a store (not in src), each
lookup by the key its name says, each fetch-all appending the rows it finds to
the receiver. -/
def Store.env (s : Store) (is64 : Bool) : Env :=
  { is64 := is64
    Quote := plainQuote
    GetCommentById := fun recv => s.one (s.Comments.find? (fun c => c.Id == recv.Id))
    GetCommentsByPostId := s.GetCommentsByPostId
    GetAllPostList := s.GetAllPostList
    GetPostById := fun recv => s.one (s.Posts.find? (fun p => p.Id == recv.Id))
    GetPostBySlug := fun _ slug => s.one (s.Posts.find? (fun p => p.Slug == slug))
    GetAllTags := fun recv => s.query (.ok (recv.append s.Tags))
    GetTag := fun recv => s.one (s.Tags.find? (fun t => t.Id == recv.Id))
    GetTagBySlug := fun recv => s.one (s.Tags.find? (fun t => t.Slug == recv.Slug))
    GetUserById := fun recv => s.one (s.Users.find? (fun u => u.Id == recv.Id))
    GetUserBySlug := fun recv => s.one (s.Users.find? (fun u => u.Slug == recv.Slug))
    GetUserByEmail := fun recv => s.one (s.Users.find? (fun u => u.Email == recv.Email))
    PostsGetTags := Slice.nil.append s.Tags }

/-- A store with no record at all. -/
def emptyStore : Store := ⟨none, [], [], [], []⟩

/-- An unavailable store. -/
def downStore : Store := ⟨some ⟨"database is closed"⟩, [], [], [], []⟩

/-- A store with a few records; the first two posts share their publication
time, the third is a draft, the fourth a page. -/
def demoStore : Store :=
  { failure := none
    Posts := [⟨1, "hello", "Hello", false, true, 100⟩, ⟨2, "again", "Again", false, true, 100⟩,
              ⟨3, "draft", "Draft", false, false, 300⟩, ⟨4, "about", "About", true, true, 400⟩,
              ⟨5, "news", "News", false, true, 200⟩]
    Tags := [⟨7, "go", "Go"⟩]
    Users := [⟨1, "admin", "admin@example.com"⟩]
    Comments := [⟨9, 1, "first"⟩] }

/-- The route table of the spec: the symbolic name of each of the 14 documented
`/api` routes with its URL template. -/
def documentedRoutes : List (String × String) :=
  [ ("api_documentation_url", "/api/"),
    ("comments_url", "/api/comments"),
    ("comment_url", "/api/comments/:id"),
    ("comment_post_url", "/api/comments/post/:id"),
    ("posts_url", "/api/posts/"),
    ("post_url", "/api/posts/:id"),
    ("post_slug_url", "/api/posts/slug/:slug"),
    ("tags_url", "/api/tags/"),
    ("tag_url", "/api/tags/:id"),
    ("tag_slug_url", "/api/tags/slug/:slug"),
    ("users_url", "/api/users/"),
    ("user_url", "/api/users/:id"),
    ("user_slug_url", "/api/users/slug/:slug"),
    ("user_email_url", "/api/users/email/:email") ]

/-- The JSON text of a collection without entries, which does not depend on the
indentation: `null` for a nil slice, `[]` for an empty one; `none` for every
other value. -/
def Value.emptyText : Value → Option String
  | .comments .nil => some "null"
  | .comments (.of []) => some "[]"
  | .posts .nil => some "null"
  | .posts (.of []) => some "[]"
  | .tags .nil => some "null"
  | .tags (.of []) => some "[]"
  | _ => none

/-- The keys of a JSON object body; `none` when the body is no object. -/
def Body.keys (b : Body) : Option (List String) :=
  match b.value with
  | .map kvs => some (kvs.map Prod.fst)
  | _ => none

/-- The handlers of the file. -/
inductive Handler where
  | Ping
  | GetAllTags
  | APIDocumentationHandler
  | APICommentsHandler
  | APICommentHandler
  | APICommentPostHandler
  | APIPostsHandler
  | APIPostHandler
  | APIPostSlugHandler
  | APITagsHandler
  | APITagHandler
  | APITagSlugHandler
  | APIUsersHandler
  | APIUserHandler
  | APIUserSlugHandler
  | APIUserEmailHandler
deriving DecidableEq, Repr

/-- The function behind each handler. -/
def Handler.run : Handler → Env → World → World
  | .Ping => Dingo.Ping
  | .GetAllTags => Dingo.GetAllTags
  | .APIDocumentationHandler => Dingo.APIDocumentationHandler
  | .APICommentsHandler => Dingo.APICommentsHandler
  | .APICommentHandler => Dingo.APICommentHandler
  | .APICommentPostHandler => Dingo.APICommentPostHandler
  | .APIPostsHandler => Dingo.APIPostsHandler
  | .APIPostHandler => Dingo.APIPostHandler
  | .APIPostSlugHandler => Dingo.APIPostSlugHandler
  | .APITagsHandler => Dingo.APITagsHandler
  | .APITagHandler => Dingo.APITagHandler
  | .APITagSlugHandler => Dingo.APITagSlugHandler
  | .APIUsersHandler => Dingo.APIUsersHandler
  | .APIUserHandler => Dingo.APIUserHandler
  | .APIUserSlugHandler => Dingo.APIUserSlugHandler
  | .APIUserEmailHandler => Dingo.APIUserEmailHandler

/-- The handlers that parse the `id` parameter with `strconv.Atoi`. -/
def Handler.parsesId : Handler → Bool
  | .APICommentHandler => true
  | .APICommentPostHandler => true
  | .APIPostHandler => true
  | .APITagHandler => true
  | .APIUserHandler => true
  | _ => false

/-- Whether a body is an error envelope. -/
def Body.isEnvelope (b : Body) : Bool :=
  match b.value, b.indent with
  | .map [("statusCode", .int _), ("error", .str _)], some ("", "  ") => true
  | _, _ => false

/-! ## Sending -/

theorem send_unsent (ctx : Context) (b : Body) (h : ctx.IsSent = false) :
    ctx.Send b = { ctx with Written := ctx.Written ++ [⟨ctx.statusCode, b⟩], IsSent := true } := by
  simp [Context.Send, h]

/-- CLAIM C1 (as amended): for every status code n and every error e,
`handleErr(ctx, n, e)` on a context that has sent nothing builds the JSON
object with exactly the two fields statusCode = n and error = e's message and
writes it, two-space-indented, as the one response body; the HTTP status code
of the response is the one the context had, which the helper leaves unchanged:
n is in the body field only. -/
theorem handleErr_writes_envelope_keeps_status (w : World) (n : Int) (e : GoError)
    (h : w.ctx.IsSent = false) :
    (handleErr w n e).ctx.Written = w.ctx.Written ++
        [⟨w.ctx.statusCode,
          ⟨.map [("statusCode", .int n), ("error", .str e.Error)], some ("", "  ")⟩⟩]
      ∧ (handleErr w n e).ctx.statusCode = w.ctx.statusCode
      ∧ (handleErr w n e).log = w.log ++
        [.JSONIndent (.map [("statusCode", .int n), ("error", .str e.Error)]) "" "  "] := by
  simp [handleErr, JSONIndent, send_unsent _ _ h]

theorem handleErr_writes_envelope_keeps_status_witness :
    (World.fresh []).ctx.IsSent = false ∧
    ((handleErr (World.fresh []) 404 ⟨"not found"⟩).ctx.Written = (World.fresh []).ctx.Written ++
        [⟨(World.fresh []).ctx.statusCode,
          ⟨.map [("statusCode", .int 404), ("error", .str "not found")], some ("", "  ")⟩⟩]
      ∧ (handleErr (World.fresh []) 404 ⟨"not found"⟩).ctx.statusCode
          = (World.fresh []).ctx.statusCode
      ∧ (handleErr (World.fresh []) 404 ⟨"not found"⟩).log = (World.fresh []).log ++
        [.JSONIndent (.map [("statusCode", .int 404), ("error", .str "not found")]) "" "  "]) :=
  ⟨rfl, handleErr_writes_envelope_keeps_status (World.fresh []) 404 ⟨"not found"⟩ rfl⟩

/-- CLAIM C1 (counterexample): on a fresh request, `handleErr(ctx, 500, e)`
writes the envelope with statusCode 500 under the HTTP status 200, not 500. -/
theorem handleErr_status_counterexample :
    (handleErr (World.fresh []) 500 ⟨"boom"⟩).ctx.Written
        = [⟨200, ⟨.map [("statusCode", .int 500), ("error", .str "boom")], some ("", "  ")⟩⟩]
      ∧ ¬ (∀ r ∈ (handleErr (World.fresh []) 500 ⟨"boom"⟩).ctx.Written, r.status = 500) := by
  decide

/-! ## `strconv.Atoi` -/

theorem digitsValue_ge (cs : List Char) (n : Nat) : n ≤ digitsValue cs n := by
  induction cs generalizing n with
  | nil => simp [digitsValue]
  | cons c cs ih =>
    have h := ih (n * 10 + (c.toNat - 48))
    simp only [digitsValue, List.foldl_cons] at h ⊢
    omega

theorem parseUintLoop_ok (m : Nat) (cs : List Char) (n : Nat)
    (hd : cs.all isDigit = true) (hv : digitsValue cs n ≤ m) :
    parseUintLoop m cs n = (digitsValue cs n, none) := by
  induction cs generalizing n with
  | nil => simp [parseUintLoop, digitsValue]
  | cons c cs ih =>
    simp only [List.all_cons, Bool.and_eq_true] at hd
    have hv1 : digitsValue cs (n * 10 + (c.toNat - 48)) ≤ m := by
      simpa [digitsValue] using hv
    have hge := digitsValue_ge cs (n * 10 + (c.toNat - 48))
    have hn : ¬ (n * 10 + (c.toNat - 48) > m) := by omega
    simp only [parseUintLoop, hd.1, if_true, hn, if_false]
    rw [ih _ hd.2 hv1]
    simp [digitsValue]

theorem parseUintLoop_bad (m : Nat) (cs : List Char) (n : Nat)
    (hd : cs.all isDigit = false) :
    (parseUintLoop m cs n).2 ≠ none := by
  induction cs generalizing n with
  | nil => simp at hd
  | cons c cs ih =>
    by_cases hc : isDigit c = true
    · have hcs : cs.all isDigit = false := by
        simpa [List.all_cons, hc] using hd
      by_cases hn : n * 10 + (c.toNat - 48) > m
      · simp [parseUintLoop, hc, hn]
      · simp only [parseUintLoop, hc, if_true, hn, if_false]
        exact ih _ hcs
    · simp [parseUintLoop, hc]

theorem parseUintLoop_range (m : Nat) (cs : List Char) (n : Nat)
    (h : (parseUintLoop m cs n).2 = some .ErrRange) :
    (parseUintLoop m cs n).1 = m := by
  induction cs generalizing n with
  | nil => simp [parseUintLoop] at h
  | cons c cs ih =>
    by_cases hc : isDigit c = true
    · by_cases hn : n * 10 + (c.toNat - 48) > m
      · simp [parseUintLoop, hc, hn]
      · simp only [parseUintLoop, hc, if_true, hn, if_false] at h ⊢
        exact ih _ h
    · simp [parseUintLoop, hc] at h

theorem parseUint_bad (b : Nat) (cs : List Char)
    (hd : cs.isEmpty = true ∨ cs.all isDigit = false) :
    (ParseUint b cs).2 ≠ none ∧
      ((ParseUint b cs).2 = some .ErrRange → (ParseUint b cs).1 = 2 ^ b - 1) := by
  by_cases he : cs = []
  · simp [ParseUint, he]
  · have hd' : cs.all isDigit = false := by
      rcases hd with h | h
      · exact absurd (List.isEmpty_iff.mp h) he
      · exact h
    simp only [ParseUint, he, if_false]
    exact ⟨parseUintLoop_bad _ _ _ hd', parseUintLoop_range _ _ _⟩

theorem parseInt_after_bad (b : Nat) (hb : b = 32 ∨ b = 64) (neg : Bool) (r : Nat × Option NumErr)
    (h1 : r.2 ≠ none) (h2 : r.2 = some .ErrRange → r.1 = 2 ^ b - 1) :
    (if r.2 = some NumErr.ErrSyntax then ((0 : Int), some NumErr.ErrSyntax)
      else if (!neg && decide (r.1 ≥ 2 ^ (b - 1))) = true then
        (((2 ^ (b - 1) : Nat) : Int) - 1, some NumErr.ErrRange)
      else if (neg && decide (r.1 > 2 ^ (b - 1))) = true then
        (-((2 ^ (b - 1) : Nat) : Int), some NumErr.ErrRange)
      else (if neg = true then -(r.1 : Int) else (r.1 : Int), none)).2 ≠ none := by
  obtain ⟨v, e⟩ := r
  cases e with
  | none => simp at h1
  | some k =>
    cases k with
    | ErrSyntax => simp
    | ErrRange =>
      have hv : v = 2 ^ b - 1 := h2 rfl
      subst hv
      rcases hb with hb | hb <;> subst hb <;> cases neg <;> simp

theorem parseInt_bad (b : Nat) (hb : b = 32 ∨ b = 64) (s : String)
    (h : isDecimalInteger s = false) :
    (ParseInt b s.data).2 ≠ none := by
  unfold isDecimalInteger at h
  cases hs : s.data with
  | nil => simp [ParseInt]
  | cons c rest =>
    rw [hs] at h
    simp only at h
    by_cases hsign : c = '+' ∨ c = '-'
    · simp only [hsign, if_true, Bool.and_eq_false_imp, Bool.not_eq_true'] at h
      have hbad := parseUint_bad b rest (by
        by_cases hr : rest.isEmpty = true
        · exact Or.inl hr
        · exact Or.inr (h (by simpa using hr)))
      have := parseInt_after_bad b hb (decide (c = '-')) (ParseUint b rest) hbad.1 hbad.2
      simpa [ParseInt, hsign] using this
    · simp only [hsign, if_false] at h
      have hbad := parseUint_bad b (c :: rest) (Or.inr h)
      have := parseInt_after_bad b hb (decide (c = '-')) (ParseUint b (c :: rest)) hbad.1 hbad.2
      simpa [ParseInt, hsign] using this

theorem isDigit_not_sign (c : Char) (h : isDigit c = true) : ¬ (c = '+' ∨ c = '-') := by
  intro hc
  rcases hc with hc | hc <;> subst hc <;> simp [isDigit] at h

theorem parseInt_ok (b : Nat) (hb : b = 32 ∨ b = 64) (s : String)
    (hd : isDigitString s = true) (hv : decimalValue s < 2 ^ (b - 1)) :
    ParseInt b s.data = ((decimalValue s : Int), none) := by
  unfold isDigitString at hd
  unfold decimalValue at hv ⊢
  cases hs : s.data with
  | nil => simp [hs] at hd
  | cons c rest =>
    rw [hs] at hd hv
    simp only [List.isEmpty_cons, Bool.not_false, Bool.true_and] at hd
    have hc : isDigit c = true := by
      simp only [List.all_cons, Bool.and_eq_true] at hd
      exact hd.1
    have hsign := isDigit_not_sign c hc
    have hneg : c ≠ '-' := fun h => hsign (Or.inr h)
    have hplus : c ≠ '+' := fun h => hsign (Or.inl h)
    have hmax : digitsValue (c :: rest) 0 ≤ 2 ^ b - 1 := by
      rcases hb with hb | hb <;> subst hb <;> simp at hv ⊢ <;> omega
    have hloop := parseUintLoop_ok (2 ^ b - 1) (c :: rest) 0 hd hmax
    have hnot : ¬ (digitsValue (c :: rest) 0 ≥ 2 ^ (b - 1)) := by omega
    simp [ParseInt, hneg, hplus, ParseUint, hloop, hnot]

theorem atoi_bad (env : Env) (s : String) (h : isDecimalInteger s = false) :
    ∃ k, Atoi env s = ((ParseInt env.intSize s.data).1, some (numError env "Atoi" s k)) := by
  have hb : env.intSize = 32 ∨ env.intSize = 64 := by
    unfold Env.intSize; cases env.is64 <;> simp
  have := parseInt_bad env.intSize hb s h
  cases hr : (ParseInt env.intSize s.data).2 with
  | none => exact absurd hr this
  | some k => exact ⟨k, by simp only [Atoi, hr, Option.map_some']⟩

theorem atoi_ok (env : Env) (s : String) (hd : isDigitString s = true)
    (hv : decimalValue s < 2 ^ (env.intSize - 1)) :
    Atoi env s = ((decimalValue s : Int), none) := by
  have hb : env.intSize = 32 ∨ env.intSize = 64 := by
    unfold Env.intSize; cases env.is64 <;> simp
  simp only [Atoi, parseInt_ok env.intSize hb s hd hv, Option.map_none']

theorem numError_ne_empty (env : Env) (func num : String) (k : NumErr) :
    (numError env func num k).Error ≠ "" := by
  intro h
  have h2 := congrArg String.length h
  simp only [numError, String.length_append] at h2
  have h8 : "strconv.".length = 8 := by decide
  have h0 : "".length = 0 := by decide
  omega

/-! ## Parse failures -/

theorem bodies_handleErr (w : World) (n : Int) (e : GoError) (h : w.ctx.IsSent = false) :
    (handleErr w n e).bodies = w.bodies ++ [envelope n e.Error] := by
  simp [handleErr, JSONIndent, World.bodies, envelope, send_unsent _ _ h]

/-- CLAIM C2 (as amended): for each of the five by-id handlers, every request
whose id parameter is not a decimal integer and every environment (so every
state of the store), `strconv.Atoi` fails and the one response is the error
envelope with statusCode 500 and the parse error's message, which is not
empty; it is written under the HTTP status 200, which the handler never
changes: 500 is the envelope's statusCode field only. -/
theorem byId_non_integer_yields_500 (env : Env) (params : List (String × String))
    (h : isDecimalInteger ((NewContext params).Param "id") = false) :
    ∃ e : GoError, (Atoi env ((NewContext params).Param "id")).2 = some e ∧ e.Error ≠ "" ∧
      (APICommentHandler env (World.fresh params)).ctx.Written
        = [⟨200, envelope 500 e.Error⟩] ∧
      (APICommentPostHandler env (World.fresh params)).ctx.Written
        = [⟨200, envelope 500 e.Error⟩] ∧
      (APIPostHandler env (World.fresh params)).ctx.Written
        = [⟨200, envelope 500 e.Error⟩] ∧
      (APITagHandler env (World.fresh params)).ctx.Written
        = [⟨200, envelope 500 e.Error⟩] ∧
      (APIUserHandler env (World.fresh params)).ctx.Written
        = [⟨200, envelope 500 e.Error⟩] := by
  obtain ⟨k, hk⟩ := atoi_bad env _ h
  have hp : ((World.fresh params).read "id").ctx.Param "id" = (NewContext params).Param "id" := rfl
  refine ⟨numError env "Atoi" ((NewContext params).Param "id") k, by rw [hk],
    numError_ne_empty _ _ _ _, ?_, ?_, ?_, ?_, ?_⟩
  · simp only [APICommentHandler, hp, hk]
    rfl
  · simp only [APICommentPostHandler, hp, hk]
    rfl
  · simp only [APIPostHandler, hp, hk]
    rfl
  · simp only [APITagHandler, hp, hk]
    rfl
  · simp only [APIUserHandler, hp, hk]
    rfl

theorem byId_non_integer_yields_500_witness :
    isDecimalInteger ((NewContext [("id", "12a")]).Param "id") = false ∧
    ∃ e : GoError, (Atoi (demoStore.env true) ((NewContext [("id", "12a")]).Param "id")).2 = some e ∧
      e.Error ≠ "" ∧
      (APICommentHandler (demoStore.env true) (World.fresh [("id", "12a")])).ctx.Written
        = [⟨200, envelope 500 e.Error⟩] ∧
      (APICommentPostHandler (demoStore.env true) (World.fresh [("id", "12a")])).ctx.Written
        = [⟨200, envelope 500 e.Error⟩] ∧
      (APIPostHandler (demoStore.env true) (World.fresh [("id", "12a")])).ctx.Written
        = [⟨200, envelope 500 e.Error⟩] ∧
      (APITagHandler (demoStore.env true) (World.fresh [("id", "12a")])).ctx.Written
        = [⟨200, envelope 500 e.Error⟩] ∧
      (APIUserHandler (demoStore.env true) (World.fresh [("id", "12a")])).ctx.Written
        = [⟨200, envelope 500 e.Error⟩] :=
  ⟨by decide, byId_non_integer_yields_500 (demoStore.env true) [("id", "12a")] (by decide)⟩

/-- CLAIM C2 (counterexample): for the id `12a`, which is no decimal integer,
the response of each of the five by-id handlers carries the envelope with
statusCode 500 but goes out under the HTTP status 200: the handler does not
yield status 500. -/
theorem byId_non_integer_status_counterexample :
    isDecimalInteger "12a" = false ∧
      (APICommentHandler (demoStore.env true) (World.fresh [("id", "12a")])).ctx.Written
        = [⟨200, envelope 500 (numError (demoStore.env true) "Atoi" "12a" .ErrSyntax).Error⟩] ∧
      (APICommentHandler (demoStore.env true) (World.fresh [("id", "12a")])).ctx.Written.map
        Response.status = [200] ∧
      (APICommentPostHandler (demoStore.env true) (World.fresh [("id", "12a")])).ctx.Written.map
        Response.status = [200] ∧
      (APIPostHandler (demoStore.env true) (World.fresh [("id", "12a")])).ctx.Written.map
        Response.status = [200] ∧
      (APITagHandler (demoStore.env true) (World.fresh [("id", "12a")])).ctx.Written.map
        Response.status = [200] ∧
      (APIUserHandler (demoStore.env true) (World.fresh [("id", "12a")])).ctx.Written.map
        Response.status = [200] ∧
      ¬ (∀ r ∈ (APICommentHandler (demoStore.env true)
          (World.fresh [("id", "12a")])).ctx.Written, r.status = 500) := by
  decide

/-! ## Lookups that fail -/

theorem bodies_call_read (params : List (String × String)) (k : String) (c : ModelCall) :
    (((World.fresh params).read k).call c).bodies = [] ∧
      (((World.fresh params).read k).call c).ctx.IsSent = false :=
  ⟨rfl, rfl⟩

/-- CLAIM C3 (as amended): for each of the five by-id handlers and every id
parameter that is a string of decimal digits whose value fits the platform's
`int` (below 2^63 on a 64-bit platform, below 2^31 on a 32-bit one), when the
model lookup for that id fails, the one body written is the error envelope
with statusCode 404 and the lookup error's message. -/
theorem byId_missing_yields_404 (env : Env) (params : List (String × String))
    (hd : isDigitString ((NewContext params).Param "id") = true)
    (hv : decimalValue ((NewContext params).Param "id") < 2 ^ (env.intSize - 1)) :
    (∀ e, env.GetCommentById
          { Comment.zero with Id := decimalValue ((NewContext params).Param "id") } = .error e →
        (APICommentHandler env (World.fresh params)).bodies = [envelope 404 e.Error]) ∧
    (∀ e, env.GetCommentsByPostId .nil (decimalValue ((NewContext params).Param "id")) = .error e →
        (APICommentPostHandler env (World.fresh params)).bodies = [envelope 404 e.Error]) ∧
    (∀ e, env.GetPostById
          { Post.zero with Id := decimalValue ((NewContext params).Param "id") } = .error e →
        (APIPostHandler env (World.fresh params)).bodies = [envelope 404 e.Error]) ∧
    (∀ e, env.GetTag
          { Tag.zero with Id := decimalValue ((NewContext params).Param "id") } = .error e →
        (APITagHandler env (World.fresh params)).bodies = [envelope 404 e.Error]) ∧
    (∀ e, env.GetUserById
          { User.zero with Id := decimalValue ((NewContext params).Param "id") } = .error e →
        (APIUserHandler env (World.fresh params)).bodies = [envelope 404 e.Error]) := by
  have hk := atoi_ok env _ hd hv
  have hp : ((World.fresh params).read "id").ctx.Param "id" = (NewContext params).Param "id" := rfl
  refine ⟨?_, ?_, ?_, ?_, ?_⟩ <;> intro e he
  · simp only [APICommentHandler, hp, hk, he,
      bodies_handleErr _ _ _ (bodies_call_read params _ _).2, (bodies_call_read params _ _).1,
      List.nil_append]
  · simp only [APICommentPostHandler, hp, hk, he,
      bodies_handleErr _ _ _ (bodies_call_read params _ _).2, (bodies_call_read params _ _).1,
      List.nil_append]
  · simp only [APIPostHandler, hp, hk, he,
      bodies_handleErr _ _ _ (bodies_call_read params _ _).2, (bodies_call_read params _ _).1,
      List.nil_append]
  · simp only [APITagHandler, hp, hk, he,
      bodies_handleErr _ _ _ (bodies_call_read params _ _).2, (bodies_call_read params _ _).1,
      List.nil_append]
  · simp only [APIUserHandler, hp, hk, he,
      bodies_handleErr _ _ _ (bodies_call_read params _ _).2, (bodies_call_read params _ _).1,
      List.nil_append]

theorem byId_missing_yields_404_witness :
    (APICommentHandler (emptyStore.env true) (World.fresh [("id", "42")])).bodies
        = [envelope 404 errNoRows.Error] ∧
    (APICommentPostHandler (emptyStore.env true) (World.fresh [("id", "42")])).bodies
        = [envelope 404 errNoRows.Error] ∧
    (APIPostHandler (emptyStore.env true) (World.fresh [("id", "42")])).bodies
        = [envelope 404 errNoRows.Error] ∧
    (APITagHandler (emptyStore.env true) (World.fresh [("id", "42")])).bodies
        = [envelope 404 errNoRows.Error] ∧
    (APIUserHandler (emptyStore.env true) (World.fresh [("id", "42")])).bodies
        = [envelope 404 errNoRows.Error] :=
  have h := byId_missing_yields_404 (emptyStore.env true) [("id", "42")] (by decide) (by decide)
  ⟨h.1 _ rfl, h.2.1 _ rfl, h.2.2.1 _ rfl, h.2.2.2.1 _ rfl, h.2.2.2.2 _ rfl⟩

/-- CLAIM C3 (counterexample): the id `9223372036854775808` is a string of
decimal digits and the store has no matching comment, yet on a 64-bit
platform `APICommentHandler` answers with the envelope with statusCode 500
(the parse error "value out of range"), not 404; on a 32-bit platform the
same happens from `2147483648` on. -/
theorem byId_long_digits_counterexample :
    isDigitString "9223372036854775808" = true ∧
    (emptyStore.env true).GetCommentById { Comment.zero with Id := 9223372036854775808 }
      = .error errNoRows ∧
    (APICommentHandler (emptyStore.env true)
        (World.fresh [("id", "9223372036854775808")])).bodies
      = [envelope 500
          (numError (emptyStore.env true) "Atoi" "9223372036854775808" .ErrRange).Error] ∧
    (APICommentHandler (emptyStore.env false) (World.fresh [("id", "2147483648")])).bodies
      = [envelope 500 (numError (emptyStore.env false) "Atoi" "2147483648" .ErrRange).Error] :=
  ⟨by decide, rfl, by decide, by decide⟩

/-- CLAIM C4: for every slug or email parameter whose model lookup fails,
`APIPostSlugHandler`, `APIUserSlugHandler` and `APIUserEmailHandler` write the
error envelope with statusCode 404 and `APITagSlugHandler` writes the error
envelope with statusCode 500, each with the lookup error's message. -/
theorem bySlug_missing_yields_404_tag_500 (env : Env) (params : List (String × String))
    (e : GoError) :
    (env.GetPostBySlug Post.zero ((NewContext params).Param "slug") = .error e →
        (APIPostSlugHandler env (World.fresh params)).bodies = [envelope 404 e.Error]) ∧
    (env.GetUserBySlug { User.zero with Slug := (NewContext params).Param "slug" } = .error e →
        (APIUserSlugHandler env (World.fresh params)).bodies = [envelope 404 e.Error]) ∧
    (env.GetUserByEmail { User.zero with Email := (NewContext params).Param "email" } = .error e →
        (APIUserEmailHandler env (World.fresh params)).bodies = [envelope 404 e.Error]) ∧
    (env.GetTagBySlug { Tag.zero with Slug := (NewContext params).Param "slug" } = .error e →
        (APITagSlugHandler env (World.fresh params)).bodies = [envelope 500 e.Error]) := by
  have hs : ((World.fresh params).read "slug").ctx.Param "slug"
      = (NewContext params).Param "slug" := rfl
  have hm : ((World.fresh params).read "email").ctx.Param "email"
      = (NewContext params).Param "email" := rfl
  refine ⟨?_, ?_, ?_, ?_⟩ <;> intro he
  · simp only [APIPostSlugHandler, hs, he,
      bodies_handleErr _ _ _ (bodies_call_read params _ _).2, (bodies_call_read params _ _).1,
      List.nil_append]
  · simp only [APIUserSlugHandler, hs, he,
      bodies_handleErr _ _ _ (bodies_call_read params _ _).2, (bodies_call_read params _ _).1,
      List.nil_append]
  · simp only [APIUserEmailHandler, hm, he,
      bodies_handleErr _ _ _ (bodies_call_read params _ _).2, (bodies_call_read params _ _).1,
      List.nil_append]
  · simp only [APITagSlugHandler, hs, he,
      bodies_handleErr _ _ _ (bodies_call_read params _ _).2, (bodies_call_read params _ _).1,
      List.nil_append]

theorem bySlug_missing_yields_404_tag_500_witness :
    (APIPostSlugHandler (demoStore.env true)
        (World.fresh [("slug", "unknown-slug"), ("email", "nobody@example.com")])).bodies
      = [envelope 404 errNoRows.Error] ∧
    (APIUserSlugHandler (demoStore.env true)
        (World.fresh [("slug", "unknown-slug"), ("email", "nobody@example.com")])).bodies
      = [envelope 404 errNoRows.Error] ∧
    (APIUserEmailHandler (demoStore.env true)
        (World.fresh [("slug", "unknown-slug"), ("email", "nobody@example.com")])).bodies
      = [envelope 404 errNoRows.Error] ∧
    (APITagSlugHandler (demoStore.env true)
        (World.fresh [("slug", "unknown-slug"), ("email", "nobody@example.com")])).bodies
      = [envelope 500 errNoRows.Error] :=
  have h := bySlug_missing_yields_404_tag_500 (demoStore.env true)
    [("slug", "unknown-slug"), ("email", "nobody@example.com")] errNoRows
  ⟨h.1 rfl, h.2.1 rfl, h.2.2.1 rfl, h.2.2.2 rfl⟩

/-! ## Lookups that succeed -/

/-- CLAIM C5 (as amended): for every single-entity handler and every parameter
value that parses and whose model lookup succeeds, the handler makes exactly
one model call, on a zero-valued entity with only the parsed key set (Id the
integer `strconv.Atoi` returned, or Slug, or Email the parameter string),
except `APIPostSlugHandler`, which calls `GetPostBySlug` on an entirely
zero-valued Post and passes the slug as the argument; the one response is the
two-space-indented JSON of the entity the lookup returned, with status 200. -/
theorem single_entity_found (env : Env) (params : List (String × String)) :
    (∀ id c, Atoi env ((NewContext params).Param "id") = (id, none) →
        env.GetCommentById { Comment.zero with Id := id } = .ok c →
        (APICommentHandler env (World.fresh params)).ctx.Written = [⟨200, indented (.comment c)⟩] ∧
        (APICommentHandler env (World.fresh params)).log =
          [.Param "id", .Model (.GetCommentById { Comment.zero with Id := id }),
            .JSONIndent (.comment c) "" "  "]) ∧
    (∀ id p, Atoi env ((NewContext params).Param "id") = (id, none) →
        env.GetPostById { Post.zero with Id := id } = .ok p →
        (APIPostHandler env (World.fresh params)).ctx.Written = [⟨200, indented (.post p)⟩] ∧
        (APIPostHandler env (World.fresh params)).log =
          [.Param "id", .Model (.GetPostById { Post.zero with Id := id }),
            .JSONIndent (.post p) "" "  "]) ∧
    (∀ p, env.GetPostBySlug Post.zero ((NewContext params).Param "slug") = .ok p →
        (APIPostSlugHandler env (World.fresh params)).ctx.Written = [⟨200, indented (.post p)⟩] ∧
        (APIPostSlugHandler env (World.fresh params)).log =
          [.Param "slug", .Model (.GetPostBySlug Post.zero ((NewContext params).Param "slug")),
            .JSONIndent (.post p) "" "  "]) ∧
    (∀ id t, Atoi env ((NewContext params).Param "id") = (id, none) →
        env.GetTag { Tag.zero with Id := id } = .ok t →
        (APITagHandler env (World.fresh params)).ctx.Written = [⟨200, indented (.tag t)⟩] ∧
        (APITagHandler env (World.fresh params)).log =
          [.Param "id", .Model (.GetTag { Tag.zero with Id := id }),
            .JSONIndent (.tag t) "" "  "]) ∧
    (∀ t, env.GetTagBySlug { Tag.zero with Slug := (NewContext params).Param "slug" } = .ok t →
        (APITagSlugHandler env (World.fresh params)).ctx.Written = [⟨200, indented (.tag t)⟩] ∧
        (APITagSlugHandler env (World.fresh params)).log =
          [.Param "slug",
            .Model (.GetTagBySlug { Tag.zero with Slug := (NewContext params).Param "slug" }),
            .JSONIndent (.tag t) "" "  "]) ∧
    (∀ id u, Atoi env ((NewContext params).Param "id") = (id, none) →
        env.GetUserById { User.zero with Id := id } = .ok u →
        (APIUserHandler env (World.fresh params)).ctx.Written = [⟨200, indented (.user u)⟩] ∧
        (APIUserHandler env (World.fresh params)).log =
          [.Param "id", .Model (.GetUserById { User.zero with Id := id }),
            .JSONIndent (.user u) "" "  "]) ∧
    (∀ u, env.GetUserBySlug { User.zero with Slug := (NewContext params).Param "slug" } = .ok u →
        (APIUserSlugHandler env (World.fresh params)).ctx.Written = [⟨200, indented (.user u)⟩] ∧
        (APIUserSlugHandler env (World.fresh params)).log =
          [.Param "slug",
            .Model (.GetUserBySlug { User.zero with Slug := (NewContext params).Param "slug" }),
            .JSONIndent (.user u) "" "  "]) ∧
    (∀ u, env.GetUserByEmail { User.zero with Email := (NewContext params).Param "email" } = .ok u →
        (APIUserEmailHandler env (World.fresh params)).ctx.Written = [⟨200, indented (.user u)⟩] ∧
        (APIUserEmailHandler env (World.fresh params)).log =
          [.Param "email",
            .Model (.GetUserByEmail { User.zero with Email := (NewContext params).Param "email" }),
            .JSONIndent (.user u) "" "  "]) := by
  have hp : ((World.fresh params).read "id").ctx.Param "id" = (NewContext params).Param "id" := rfl
  have hs : ((World.fresh params).read "slug").ctx.Param "slug"
      = (NewContext params).Param "slug" := rfl
  have hm : ((World.fresh params).read "email").ctx.Param "email"
      = (NewContext params).Param "email" := rfl
  refine ⟨?_, ?_, ?_, ?_, ?_, ?_, ?_, ?_⟩
  · intro id c hk he
    simp only [APICommentHandler, hp, hk, he]
    exact ⟨rfl, rfl⟩
  · intro id p hk he
    simp only [APIPostHandler, hp, hk, he]
    exact ⟨rfl, rfl⟩
  · intro p he
    simp only [APIPostSlugHandler, hs, he]
    exact ⟨rfl, rfl⟩
  · intro id t hk he
    simp only [APITagHandler, hp, hk, he]
    exact ⟨rfl, rfl⟩
  · intro t he
    simp only [APITagSlugHandler, hs, he]
    exact ⟨rfl, rfl⟩
  · intro id u hk he
    simp only [APIUserHandler, hp, hk, he]
    exact ⟨rfl, rfl⟩
  · intro u he
    simp only [APIUserSlugHandler, hs, he]
    exact ⟨rfl, rfl⟩
  · intro u he
    simp only [APIUserEmailHandler, hm, he]
    exact ⟨rfl, rfl⟩

theorem single_entity_found_witness :
    ((APICommentHandler (demoStore.env true) (World.fresh [("id", "9")])).ctx.Written
        = [⟨200, indented (.comment ⟨9, 1, "first"⟩)⟩] ∧
      (APICommentHandler (demoStore.env true) (World.fresh [("id", "9")])).log =
        [.Param "id", .Model (.GetCommentById { Comment.zero with Id := 9 }),
          .JSONIndent (.comment ⟨9, 1, "first"⟩) "" "  "]) ∧
    ((APIPostHandler (demoStore.env true) (World.fresh [("id", "+1")])).ctx.Written
        = [⟨200, indented (.post ⟨1, "hello", "Hello", false, true, 100⟩)⟩] ∧
      (APIPostHandler (demoStore.env true) (World.fresh [("id", "+1")])).log =
        [.Param "id", .Model (.GetPostById { Post.zero with Id := 1 }),
          .JSONIndent (.post ⟨1, "hello", "Hello", false, true, 100⟩) "" "  "]) ∧
    ((APIPostSlugHandler (demoStore.env true) (World.fresh [("slug", "hello")])).ctx.Written
        = [⟨200, indented (.post ⟨1, "hello", "Hello", false, true, 100⟩)⟩] ∧
      (APIPostSlugHandler (demoStore.env true) (World.fresh [("slug", "hello")])).log =
        [.Param "slug",
          .Model (.GetPostBySlug Post.zero ((NewContext [("slug", "hello")]).Param "slug")),
          .JSONIndent (.post ⟨1, "hello", "Hello", false, true, 100⟩) "" "  "]) ∧
    ((APITagHandler (demoStore.env true) (World.fresh [("id", "7")])).ctx.Written
        = [⟨200, indented (.tag ⟨7, "go", "Go"⟩)⟩] ∧
      (APITagHandler (demoStore.env true) (World.fresh [("id", "7")])).log =
        [.Param "id", .Model (.GetTag { Tag.zero with Id := 7 }),
          .JSONIndent (.tag ⟨7, "go", "Go"⟩) "" "  "]) ∧
    ((APITagSlugHandler (demoStore.env true) (World.fresh [("slug", "go")])).ctx.Written
        = [⟨200, indented (.tag ⟨7, "go", "Go"⟩)⟩] ∧
      (APITagSlugHandler (demoStore.env true) (World.fresh [("slug", "go")])).log =
        [.Param "slug",
          .Model (.GetTagBySlug { Tag.zero with Slug := (NewContext [("slug", "go")]).Param "slug" }),
          .JSONIndent (.tag ⟨7, "go", "Go"⟩) "" "  "]) ∧
    ((APIUserHandler (demoStore.env false) (World.fresh [("id", "1")])).ctx.Written
        = [⟨200, indented (.user ⟨1, "admin", "admin@example.com"⟩)⟩] ∧
      (APIUserHandler (demoStore.env false) (World.fresh [("id", "1")])).log =
        [.Param "id", .Model (.GetUserById { User.zero with Id := 1 }),
          .JSONIndent (.user ⟨1, "admin", "admin@example.com"⟩) "" "  "]) ∧
    ((APIUserSlugHandler (demoStore.env true) (World.fresh [("slug", "admin")])).ctx.Written
        = [⟨200, indented (.user ⟨1, "admin", "admin@example.com"⟩)⟩] ∧
      (APIUserSlugHandler (demoStore.env true) (World.fresh [("slug", "admin")])).log =
        [.Param "slug",
          .Model (.GetUserBySlug
            { User.zero with Slug := (NewContext [("slug", "admin")]).Param "slug" }),
          .JSONIndent (.user ⟨1, "admin", "admin@example.com"⟩) "" "  "]) ∧
    ((APIUserEmailHandler (demoStore.env true)
          (World.fresh [("email", "admin@example.com")])).ctx.Written
        = [⟨200, indented (.user ⟨1, "admin", "admin@example.com"⟩)⟩] ∧
      (APIUserEmailHandler (demoStore.env true) (World.fresh [("email", "admin@example.com")])).log =
        [.Param "email",
          .Model (.GetUserByEmail
            { User.zero with Email := (NewContext [("email", "admin@example.com")]).Param "email" }),
          .JSONIndent (.user ⟨1, "admin", "admin@example.com"⟩) "" "  "]) :=
  ⟨(single_entity_found (demoStore.env true) [("id", "9")]).1 9 ⟨9, 1, "first"⟩ rfl rfl,
   (single_entity_found (demoStore.env true) [("id", "+1")]).2.1 1
      ⟨1, "hello", "Hello", false, true, 100⟩ rfl rfl,
   (single_entity_found (demoStore.env true) [("slug", "hello")]).2.2.1
      ⟨1, "hello", "Hello", false, true, 100⟩ rfl,
   (single_entity_found (demoStore.env true) [("id", "7")]).2.2.2.1 7 ⟨7, "go", "Go"⟩ rfl rfl,
   (single_entity_found (demoStore.env true) [("slug", "go")]).2.2.2.2.1 ⟨7, "go", "Go"⟩ rfl,
   (single_entity_found (demoStore.env false) [("id", "1")]).2.2.2.2.2.1 1
      ⟨1, "admin", "admin@example.com"⟩ rfl rfl,
   (single_entity_found (demoStore.env true) [("slug", "admin")]).2.2.2.2.2.2.1
      ⟨1, "admin", "admin@example.com"⟩ rfl,
   (single_entity_found (demoStore.env true) [("email", "admin@example.com")]).2.2.2.2.2.2.2
      ⟨1, "admin", "admin@example.com"⟩ rfl⟩

/-- CLAIM C5 (counterexample): for the slug `hello`, whose lookup succeeds,
`APIPostSlugHandler` invokes `GetPostBySlug` on the entirely zero-valued Post,
whose Slug is empty, not on a Post with Slug set to the parameter. -/
theorem postSlug_receiver_counterexample :
    (APIPostSlugHandler (demoStore.env true) (World.fresh [("slug", "hello")])).log =
        [.Param "slug", .Model (.GetPostBySlug Post.zero "hello"),
          .JSONIndent (.post ⟨1, "hello", "Hello", false, true, 100⟩) "" "  "] ∧
      Post.zero.Slug ≠ "hello" ∧
      Post.zero ≠ { Post.zero with Slug := "hello" } := by
  decide

/-! ## The documentation handler -/

/-- CLAIM C6 (as amended): for every request and every environment, the one
response of `APIDocumentationHandler` is the same two-space-indented JSON
object, with status 200; its key set is exactly 15 keys: `auth_url`, mapped to
`/auth/`, and the 14 keys of the documented `/api` routes, each mapped to its
URL template, no key twice, and no other key. -/
theorem documentation_fifteen_keys (env : Env) (params : List (String × String)) :
    (APIDocumentationHandler env (World.fresh params)).ctx.Written
        = [⟨200, indented (.map routes)⟩] ∧
      routes = ("auth_url", .str "/auth/") ::
        documentedRoutes.map (fun kv => (kv.1, Any.str kv.2)) ∧
      (indented (.map routes)).keys = some ("auth_url" :: documentedRoutes.map Prod.fst) ∧
      ("auth_url" :: documentedRoutes.map Prod.fst).Nodup ∧
      ("auth_url" :: documentedRoutes.map Prod.fst).length = 15 :=
  ⟨rfl, by decide, by decide, by decide, by decide⟩

/-- CLAIM C6 (counterexample): the body `APIDocumentationHandler` writes has
the key `auth_url`, which is none of the 14 documented keys: it has 15 keys. -/
theorem documentation_auth_url_counterexample :
    (APIDocumentationHandler (demoStore.env true) (World.fresh [])).bodies.map Body.keys
        = [some (routes.map Prod.fst)] ∧
      "auth_url" ∈ routes.map Prod.fst ∧
      "auth_url" ∉ documentedRoutes.map Prod.fst ∧
      (documentedRoutes.map Prod.fst).length = 14 ∧
      (routes.map Prod.fst).length = 15 := by
  decide

/-! ## The collection handlers -/

/-- CLAIM C7 (as amended): for `APITagsHandler` and `APIPostsHandler`, when the
model's fetch-all fails the one response is the error envelope with statusCode
404 and the fetch error's message; when it succeeds the one response is the
indented JSON of the collection as the fetch left it, and it is no error
envelope. The handler hands the fetch a nil collection (`new(model.Tags)`,
`new(model.Posts)`): one that holds entries is written as their sequence, one
the fetch left nil is written as `null`, and `[]` is written only for a
collection the fetch itself made empty and not nil. -/
theorem collections_404_or_collection (env : Env) (params : List (String × String)) :
    (∀ e, env.GetAllTags .nil = .error e →
        (APITagsHandler env (World.fresh params)).ctx.Written = [⟨200, envelope 404 e.Error⟩]) ∧
    (∀ ts, env.GetAllTags .nil = .ok ts →
        (APITagsHandler env (World.fresh params)).ctx.Written = [⟨200, indented (.tags ts)⟩] ∧
        (APITagsHandler env (World.fresh params)).log
          = [.Model (.GetAllTags .nil), .JSONIndent (.tags ts) "" "  "] ∧
        (∀ b ∈ (APITagsHandler env (World.fresh params)).bodies, b.isEnvelope = false) ∧
        (ts.toList = [] →
          ((Value.tags ts).emptyText = some "null" ↔ ts = .nil) ∧
          ((Value.tags ts).emptyText = some "[]" ↔ ts = .of []))) ∧
    (∀ e, env.GetAllPostList .nil false true "published_at DESC" = .error e →
        (APIPostsHandler env (World.fresh params)).ctx.Written = [⟨200, envelope 404 e.Error⟩]) ∧
    (∀ ps, env.GetAllPostList .nil false true "published_at DESC" = .ok ps →
        (APIPostsHandler env (World.fresh params)).ctx.Written = [⟨200, indented (.posts ps)⟩] ∧
        (APIPostsHandler env (World.fresh params)).log
          = [.Model (.GetAllPostList .nil false true "published_at DESC"),
              .JSONIndent (.posts ps) "" "  "] ∧
        (∀ b ∈ (APIPostsHandler env (World.fresh params)).bodies, b.isEnvelope = false) ∧
        (ps.toList = [] →
          ((Value.posts ps).emptyText = some "null" ↔ ps = .nil) ∧
          ((Value.posts ps).emptyText = some "[]" ↔ ps = .of []))) := by
  refine ⟨?_, ?_, ?_, ?_⟩
  · intro e he
    simp only [APITagsHandler, he]
    rfl
  · intro ts he
    have hw : (APITagsHandler env (World.fresh params)).ctx.Written
          = [⟨200, indented (.tags ts)⟩] ∧
        (APITagsHandler env (World.fresh params)).log
          = [.Model (.GetAllTags .nil), .JSONIndent (.tags ts) "" "  "] := by
      simp only [APITagsHandler, he]
      exact ⟨rfl, rfl⟩
    refine ⟨hw.1, hw.2, ?_, ?_⟩
    · intro b hmem
      simp only [World.bodies, hw.1, List.map_cons, List.map_nil, List.mem_singleton] at hmem
      subst hmem
      rfl
    · intro hnil
      cases ts with
      | nil => simp [Value.emptyText]
      | of xs =>
        simp only [Slice.toList] at hnil
        subst hnil
        simp [Value.emptyText]
  · intro e he
    simp only [APIPostsHandler, he]
    rfl
  · intro ps he
    have hw : (APIPostsHandler env (World.fresh params)).ctx.Written
          = [⟨200, indented (.posts ps)⟩] ∧
        (APIPostsHandler env (World.fresh params)).log
          = [.Model (.GetAllPostList .nil false true "published_at DESC"),
              .JSONIndent (.posts ps) "" "  "] := by
      simp only [APIPostsHandler, he]
      exact ⟨rfl, rfl⟩
    refine ⟨hw.1, hw.2, ?_, ?_⟩
    · intro b hmem
      simp only [World.bodies, hw.1, List.map_cons, List.map_nil, List.mem_singleton] at hmem
      subst hmem
      rfl
    · intro hnil
      cases ps with
      | nil => simp [Value.emptyText]
      | of xs =>
        simp only [Slice.toList] at hnil
        subst hnil
        simp [Value.emptyText]

theorem collections_404_or_collection_witness :
    (APITagsHandler (downStore.env true) (World.fresh [])).ctx.Written
        = [⟨200, envelope 404 "database is closed"⟩] ∧
    (APITagsHandler (demoStore.env true) (World.fresh [])).ctx.Written
        = [⟨200, indented (.tags (.of [⟨7, "go", "Go"⟩]))⟩] ∧
    ((Value.tags .nil).emptyText = some "null" ↔ (Slice.nil : Slice Tag) = .nil) ∧
    (APIPostsHandler (downStore.env true) (World.fresh [])).ctx.Written
        = [⟨200, envelope 404 "database is closed"⟩] ∧
    (APIPostsHandler (emptyStore.env true) (World.fresh [])).ctx.Written
        = [⟨200, indented (.posts .nil)⟩] ∧
    ((Value.posts .nil).emptyText = some "null" ↔ (Slice.nil : Slice Post) = .nil) :=
  ⟨(collections_404_or_collection (downStore.env true) []).1 ⟨"database is closed"⟩ rfl,
   ((collections_404_or_collection (demoStore.env true) []).2.1 (.of [⟨7, "go", "Go"⟩]) rfl).1,
   (((collections_404_or_collection (emptyStore.env true) []).2.1 .nil rfl).2.2.2 rfl).1,
   (collections_404_or_collection (downStore.env true) []).2.2.1 ⟨"database is closed"⟩ rfl,
   ((collections_404_or_collection (emptyStore.env true) []).2.2.2 .nil rfl).1,
   (((collections_404_or_collection (emptyStore.env true) []).2.2.2 .nil rfl).2.2.2 rfl).1⟩

/-- CLAIM C7 (counterexample): on a store without tags and without posts the
fetch-all succeeds and appends nothing, so the nil collection the handler
started from is still nil, and the body `APITagsHandler` and `APIPostsHandler`
write is `null`, not an empty sequence `[]`. -/
theorem collections_empty_null_counterexample :
    (emptyStore.env true).GetAllTags .nil = .ok .nil ∧
      (APITagsHandler (emptyStore.env true) (World.fresh [])).bodies = [indented (.tags .nil)] ∧
      (APITagsHandler (emptyStore.env true) (World.fresh [])).bodies.map
        (fun b => b.value.emptyText) = [some "null"] ∧
      (emptyStore.env true).GetAllPostList .nil false true "published_at DESC" = .ok .nil ∧
      (APIPostsHandler (emptyStore.env true) (World.fresh [])).bodies = [indented (.posts .nil)] ∧
      (APIPostsHandler (emptyStore.env true) (World.fresh [])).bodies.map
        (fun b => b.value.emptyText) = [some "null"] ∧
      some "null" ≠ some "[]" :=
  ⟨rfl, by decide, by decide, rfl, by decide, by decide, by decide⟩

/-! ## The placeholders and `Ping` -/

/-- CLAIM C9: for every request and every environment (every state of the
store, an unavailable one included), `APICommentsHandler` and `APIUsersHandler`
each write, as their only call, the indented JSON object with the single field
message = "Not implemented", and `Ping` writes, as its only call, the
un-indented JSON object with the single field status = "pong", with status
200: none of them reads a parameter or calls the model. -/
theorem placeholders_and_ping_constant (env : Env) (params : List (String × String)) :
    ((APICommentsHandler env (World.fresh params)).ctx.Written
        = [⟨200, indented (.map [("message", .str "Not implemented")])⟩] ∧
      (APICommentsHandler env (World.fresh params)).log
        = [.JSONIndent (.map [("message", .str "Not implemented")]) "" "  "]) ∧
    ((APIUsersHandler env (World.fresh params)).ctx.Written
        = [⟨200, indented (.map [("message", .str "Not implemented")])⟩] ∧
      (APIUsersHandler env (World.fresh params)).log
        = [.JSONIndent (.map [("message", .str "Not implemented")]) "" "  "]) ∧
    ((Ping env (World.fresh params)).ctx.Written
        = [⟨200, ⟨.map [("status", .str "pong")], none⟩⟩] ∧
      (Ping env (World.fresh params)).log = [.JSON (.map [("status", .str "pong")])]) :=
  ⟨⟨rfl, rfl⟩, ⟨rfl, rfl⟩, ⟨rfl, rfl⟩⟩

/-! ## The posts list -/

theorem nil_append_toList {α : Type} (xs : List α) :
    (Slice.nil.append xs).toList = xs := by
  cases xs <;> simp [Slice.append, Slice.toList]

theorem orderPosts_desc (ps : List Post) :
    (orderPosts "published_at DESC" ps).Pairwise (fun a b => a.PublishedAt ≥ b.PublishedAt) ∧
      (orderPosts "published_at DESC" ps).Perm ps := by
  haveI : IsTotal Post (fun a b => a.PublishedAt ≥ b.PublishedAt) :=
    ⟨fun a b => le_total b.PublishedAt a.PublishedAt⟩
  haveI : IsTrans Post (fun a b => a.PublishedAt ≥ b.PublishedAt) :=
    ⟨fun a b c hab hbc => le_trans hbc hab⟩
  simp only [orderPosts, if_true]
  exact ⟨List.sorted_insertionSort _ ps, List.perm_insertionSort _ ps⟩

/-- CLAIM C8 (as amended): for every store state in which the fetch succeeds,
`APIPostsHandler` requests `GetAllPostList(false, true, "published_at DESC")`
and serialises the list it gets: the published non-page posts of the store,
none unpublished, in descending order of publication time, where posts with
the same publication time follow one another (the order is not strict). -/
theorem posts_list_published_descending (s : Store) (is64 : Bool)
    (params : List (String × String)) (ps : Slice Post)
    (h : (s.env is64).GetAllPostList .nil false true "published_at DESC" = .ok ps) :
    (APIPostsHandler (s.env is64) (World.fresh params)).ctx.Written
        = [⟨200, indented (.posts ps)⟩] ∧
      (APIPostsHandler (s.env is64) (World.fresh params)).log
        = [.Model (.GetAllPostList .nil false true "published_at DESC"),
            .JSONIndent (.posts ps) "" "  "] ∧
      (∀ p ∈ ps.toList, p.IsPublished = true ∧ p.IsPage = false) ∧
      ps.toList.Pairwise (fun a b => a.PublishedAt ≥ b.PublishedAt) ∧
      ps.toList.Perm (s.Posts.filter (fun p => !p.IsPage && p.IsPublished)) := by
  have hw : (APIPostsHandler (s.env is64) (World.fresh params)).ctx.Written
        = [⟨200, indented (.posts ps)⟩] ∧
      (APIPostsHandler (s.env is64) (World.fresh params)).log
        = [.Model (.GetAllPostList .nil false true "published_at DESC"),
            .JSONIndent (.posts ps) "" "  "] := by
    simp only [APIPostsHandler, h]
    exact ⟨rfl, rfl⟩
  have hps : ps.toList = orderPosts "published_at DESC"
      (s.Posts.filter (fun p => !p.IsPage && p.IsPublished)) := by
    cases hf : s.failure with
    | some e => simp [Store.env, Store.GetAllPostList, Store.query, hf] at h
    | none =>
      simp only [Store.env, Store.GetAllPostList, Store.query, hf, Except.ok.injEq] at h
      rw [← h, nil_append_toList]
      congr 1
      apply List.filter_congr
      intro p _
      cases p.IsPage <;> simp
  have hsort := orderPosts_desc (s.Posts.filter (fun p => !p.IsPage && p.IsPublished))
  rw [← hps] at hsort
  refine ⟨hw.1, hw.2, ?_, hsort.1, hsort.2⟩
  intro p hp
  have hmem := (hsort.2.mem_iff).mp hp
  simp only [List.mem_filter, Bool.and_eq_true, Bool.not_eq_true'] at hmem
  exact ⟨hmem.2.2, hmem.2.1⟩

theorem posts_list_published_descending_witness :
    (APIPostsHandler (demoStore.env true) (World.fresh [])).ctx.Written
        = [⟨200, indented (.posts (.of [⟨5, "news", "News", false, true, 200⟩,
            ⟨1, "hello", "Hello", false, true, 100⟩,
            ⟨2, "again", "Again", false, true, 100⟩]))⟩] ∧
      (APIPostsHandler (demoStore.env true) (World.fresh [])).log
        = [.Model (.GetAllPostList .nil false true "published_at DESC"),
            .JSONIndent (.posts (.of [⟨5, "news", "News", false, true, 200⟩,
              ⟨1, "hello", "Hello", false, true, 100⟩,
              ⟨2, "again", "Again", false, true, 100⟩])) "" "  "] ∧
      (∀ p ∈ (Slice.of [(⟨5, "news", "News", false, true, 200⟩ : Post),
            ⟨1, "hello", "Hello", false, true, 100⟩,
            ⟨2, "again", "Again", false, true, 100⟩]).toList,
          p.IsPublished = true ∧ p.IsPage = false) ∧
      (Slice.of [(⟨5, "news", "News", false, true, 200⟩ : Post),
          ⟨1, "hello", "Hello", false, true, 100⟩,
          ⟨2, "again", "Again", false, true, 100⟩]).toList.Pairwise
        (fun a b => a.PublishedAt ≥ b.PublishedAt) ∧
      (Slice.of [(⟨5, "news", "News", false, true, 200⟩ : Post),
          ⟨1, "hello", "Hello", false, true, 100⟩,
          ⟨2, "again", "Again", false, true, 100⟩]).toList.Perm
        (demoStore.Posts.filter (fun p => !p.IsPage && p.IsPublished)) :=
  posts_list_published_descending demoStore true [] _ rfl

/-- CLAIM C8 (counterexample): in a store where two published posts share
their publication time, the fetch succeeds and the list `APIPostsHandler`
serialises has the two next to each other: its order is not strictly
descending. -/
theorem posts_list_tie_counterexample :
    (demoStore.env true).GetAllPostList .nil false true "published_at DESC"
        = .ok (.of [⟨5, "news", "News", false, true, 200⟩,
            ⟨1, "hello", "Hello", false, true, 100⟩,
            ⟨2, "again", "Again", false, true, 100⟩]) ∧
      (APIPostsHandler (demoStore.env true) (World.fresh [])).bodies
        = [indented (.posts (.of [⟨5, "news", "News", false, true, 200⟩,
            ⟨1, "hello", "Hello", false, true, 100⟩,
            ⟨2, "again", "Again", false, true, 100⟩]))] ∧
      ¬ [(⟨5, "news", "News", false, true, 200⟩ : Post),
          ⟨1, "hello", "Hello", false, true, 100⟩,
          ⟨2, "again", "Again", false, true, 100⟩].Pairwise
        (fun a b => a.PublishedAt > b.PublishedAt) :=
  ⟨rfl, by decide, by decide⟩

/-! ## Every handler answers once -/

/-- CLAIM C10: for every handler of the file, every request and every
environment (every outcome of parsing and of the model lookup), the handler
makes exactly one send, which is its last call, and exactly one response body
is written; and when `strconv.Atoi` fails on the id parameter of a by-id
handler, the handler makes no model call: its calls are the read of the
parameter and the send of the envelope with statusCode 500. -/
theorem every_handler_writes_once (h : Handler) (env : Env) (params : List (String × String)) :
    ((h.run env (World.fresh params)).log.filter Event.isSend).length = 1 ∧
      (h.run env (World.fresh params)).log.getLast?.map Event.isSend = some true ∧
      (h.run env (World.fresh params)).ctx.Written.length = 1 ∧
      (h.parsesId = true → ∀ e, (Atoi env ((NewContext params).Param "id")).2 = some e →
        (h.run env (World.fresh params)).log.filter Event.isModel = [] ∧
        (h.run env (World.fresh params)).log = [.Param "id",
          .JSONIndent (.map [("statusCode", .int 500), ("error", .str e.Error)]) "" "  "] ∧
        (h.run env (World.fresh params)).bodies = [envelope 500 e.Error]) := by
  have hp : ((World.fresh params).read "id").ctx.Param "id" = (NewContext params).Param "id" := rfl
  refine ⟨?_, ?_, ?_, ?_⟩
  · cases h <;>
      simp only [Handler.run, Ping, GetAllTags, APIDocumentationHandler, APICommentsHandler,
        APICommentHandler, APICommentPostHandler, APIPostsHandler, APIPostHandler,
        APIPostSlugHandler, APITagsHandler, APITagHandler, APITagSlugHandler, APIUsersHandler,
        APIUserHandler, APIUserSlugHandler, APIUserEmailHandler] <;>
      (try split) <;> (try split) <;> rfl
  · cases h <;>
      simp only [Handler.run, Ping, GetAllTags, APIDocumentationHandler, APICommentsHandler,
        APICommentHandler, APICommentPostHandler, APIPostsHandler, APIPostHandler,
        APIPostSlugHandler, APITagsHandler, APITagHandler, APITagSlugHandler, APIUsersHandler,
        APIUserHandler, APIUserSlugHandler, APIUserEmailHandler] <;>
      (try split) <;> (try split) <;> rfl
  · cases h <;>
      simp only [Handler.run, Ping, GetAllTags, APIDocumentationHandler, APICommentsHandler,
        APICommentHandler, APICommentPostHandler, APIPostsHandler, APIPostHandler,
        APIPostSlugHandler, APITagsHandler, APITagHandler, APITagSlugHandler, APIUsersHandler,
        APIUserHandler, APIUserSlugHandler, APIUserEmailHandler] <;>
      (try split) <;> (try split) <;> rfl
  · intro hid e he
    have hk : Atoi env ((NewContext params).Param "id")
        = ((Atoi env ((NewContext params).Param "id")).1, some e) := by
      rw [← he]
    cases h <;> simp only [Handler.parsesId, Bool.false_eq_true] at hid <;>
      · simp only [Handler.run, APICommentHandler, APICommentPostHandler, APIPostHandler,
          APITagHandler, APIUserHandler, hp]
        rw [hk]
        exact ⟨rfl, rfl, rfl⟩

theorem every_handler_writes_once_witness :
    ((Handler.APITagHandler.run (demoStore.env true) (World.fresh [("id", "x7")])).log.filter
        Event.isModel = [] ∧
      (Handler.APITagHandler.run (demoStore.env true) (World.fresh [("id", "x7")])).log =
        [.Param "id", .JSONIndent (.map [("statusCode", .int 500), ("error",
          .str (numError (demoStore.env true) "Atoi" "x7" .ErrSyntax).Error)]) "" "  "] ∧
      (Handler.APITagHandler.run (demoStore.env true) (World.fresh [("id", "x7")])).bodies =
        [envelope 500 (numError (demoStore.env true) "Atoi" "x7" .ErrSyntax).Error]) :=
  (every_handler_writes_once .APITagHandler (demoStore.env true) [("id", "x7")]).2.2.2 rfl
    (numError (demoStore.env true) "Atoi" "x7" .ErrSyntax) (by decide)

end Dingo
